import Mathlib

/-!
Verification development for `scripts/fix-cloud-run-traffic.py`, a one-shot
remediation tool that routes 100% of Cloud Run traffic to the first revision
returned by `gcloud run revisions list`.

The script is shallowly embedded as a pure function `FixTraffic.main` over an
environment (`Env`) that records the results the four `gcloud` subprocess
invocations would return, together with the prior content of the fixed
temporary path `/tmp/service.yaml`.  Structured data (JSON / YAML documents)
is modelled by the tree type `Json`; Python subscript semantics (`d[k]`,
`l[0]`, item assignment) are modelled by total functions into `Except Fault`,
mirroring the exceptions CPython raises (KeyError, TypeError, IndexError,
FileNotFoundError, parse errors).  An uncaught exception terminates the
interpreter with exit status 1, which `exitCode` reflects.

A crucial fidelity point: the script builds the export command as
`["gcloud", ..., "--format", "export", ">", "/tmp/service.yaml"]` and runs it
via `subprocess.run(cmd, capture_output=True, text=True)` with no
`shell=True`.  The `">"` and the path are therefore passed to `gcloud` as
literal arguments; no shell redirection takes place, the child's stdout is
captured in memory (and never used), and the filesystem is NOT written by the
export step.  The embedding models exactly that: the file state after the
export call equals the prior file state.
-/

namespace FixTraffic

/-- JSON/YAML-like structured values as produced by `json.loads` /
`yaml.safe_load`: null, booleans, numbers (modelled as integers; no claim
depends on non-integral numerics), strings, arrays, and objects as
insertion-ordered key/value lists with (by parser construction) unique keys. -/
inductive Json where
  | null : Json
  | bool (b : Bool) : Json
  | num (n : Int) : Json
  | str (s : String) : Json
  | arr (xs : List Json) : Json
  | obj (kvs : List (String × Json)) : Json

/-- Python exception classes that the script can raise (uncaught). -/
inductive Fault where
  | keyError : Fault
  | typeError : Fault
  | indexError : Fault
  | fileNotFound : Fault
  | jsonDecodeError : Fault
  | yamlError : Fault
deriving DecidableEq

/-- First-match association-list lookup (Python dict lookup; keys are unique
in parsed documents, so first match is the match). -/
def lookupKey : List (String × Json) → String → Option Json
  | [], _ => none
  | (k', v) :: rest, k => if k' = k then some v else lookupKey rest k

/-- Python subscript `x[k]` with a string key: dict lookup (KeyError when the
key is absent), TypeError on lists, strings and other non-subscriptable or
integer-indexed values. -/
def Json.get (j : Json) (k : String) : Except Fault Json :=
  match j with
  | .obj kvs =>
      match lookupKey kvs k with
      | some v => .ok v
      | none => .error .keyError
  | _ => .error .typeError

/-- Replace the value at a key, keeping position and all other entries; append
at the end when absent (Python dict item assignment `d[k] = v`). -/
def setKey : List (String × Json) → String → Json → List (String × Json)
  | [], k, v => [(k, v)]
  | (k', v') :: rest, k, v =>
      if k' = k then (k, v) :: rest else (k', v') :: setKey rest k v

/-- Python item assignment `x[k] = v` with a string key: defined on dicts,
TypeError otherwise. -/
def Json.setItem (j : Json) (k : String) (v : Json) : Except Fault Json :=
  match j with
  | .obj kvs => .ok (.obj (setKey kvs k v))
  | _ => .error .typeError

/-- Python subscript `x[0]`: first element of a list (IndexError when empty),
first character of a string, KeyError on dicts (JSON object keys are strings,
so integer key `0` is absent), TypeError otherwise. -/
def Json.index0 (j : Json) : Except Fault Json :=
  match j with
  | .arr [] => .error .indexError
  | .arr (x :: _) => .ok x
  | .obj _ => .error .keyError
  | .str s =>
      match s.data with
      | [] => .error .indexError
      | c :: _ => .ok (.str (String.mk [c]))
  | _ => .error .typeError

/-- Model of `r["metadata"]["name"]` (source lines 47 and 50). -/
def getName (r : Json) : Except Fault Json := do
  let m ← r.get "metadata"
  m.get "name"

/-- Python iteration `for r in x`: lists yield elements, dicts yield their
keys (as strings), strings yield one-character strings, other values raise
TypeError. -/
def iterElems (j : Json) : Except Fault (List Json) :=
  match j with
  | .arr xs => .ok xs
  | .obj kvs => .ok (kvs.map fun kv => Json.str kv.1)
  | .str s => .ok (s.data.map fun c => Json.str (String.mk [c]))
  | _ => .error .typeError

/-- The comprehension body: map `getName` over the iterated elements,
propagating the first exception (left to right). -/
def getNames : List Json → Except Fault (List Json)
  | [] => .ok []
  | r :: rs => do
      let n ← getName r
      let ns ← getNames rs
      pure (n :: ns)

/-- Model of `existing_revision_names = [r["metadata"]["name"] for r in revisions]`
(source line 47). -/
def extractNames (j : Json) : Except Fault (List Json) := do
  let xs ← iterElems j
  getNames xs

/-- Model of `latest_revision = revisions[0]["metadata"]["name"]` (source line 50):
the SelectLatest operation — purely positional selection of the first
element's name. -/
def selectLatest (revisions : Json) : Except Fault Json := do
  let r0 ← revisions.index0
  getName r0

/-- Model of `new_traffic = [\x7b"revisionName": latest, "percent": 100\x7d]`
(source lines 55-58). -/
def mkTraffic (latest : Json) : Json :=
  .arr [.obj [("revisionName", latest), ("percent", .num 100)]]

/-- Model of `service_config['spec']['traffic'] = new_traffic` (source line 82):
look up `spec` (KeyError/TypeError faults propagate), assign into it
(TypeError unless it is a dict); the outer document sees the mutation because
Python mutates the nested dict in place, modelled functionally by re-setting
the `spec` entry. -/
def patchTraffic (doc : Json) (newTraffic : Json) : Except Fault Json := do
  let spec ← doc.get "spec"
  let spec' ← spec.setItem "traffic" newTraffic
  doc.setItem "spec" spec'

/-- Nested field access along a path of keys (`[]` is the document itself). -/
def getPath : Json → List String → Except Fault Json
  | j, [] => .ok j
  | j, k :: p =>
      match j.get k with
      | .ok v => getPath v p
      | .error f => .error f

/-- Captured stdout of a subprocess, as seen by a later parse: either text
whose JSON parse is `j`, or text that is not valid JSON. -/
inductive Stdout where
  | jsonText (j : Json) : Stdout
  | rawText (s : String) : Stdout

/-- Model of `json.loads` on captured stdout (source lines 30 and 46); raises
`json.JSONDecodeError` on invalid input. -/
def jsonLoads : Stdout → Except Fault Json
  | .jsonText j => .ok j
  | .rawText _ => .error .jsonDecodeError

/-- Content of the temporary file, as seen by `yaml.safe_load`: either text
parsing to document `j` (what `yaml.dump j` writes round-trips to `j` for
these tree values), or text that is not valid YAML. -/
inductive FileContent where
  | yamlDoc (j : Json) : FileContent
  | badYaml (s : String) : FileContent

/-- Model of `yaml.safe_load` on file content (source line 81). -/
def yamlLoads : FileContent → Except Fault Json
  | .yamlDoc j => .ok j
  | .badYaml _ => .error .yamlError

/-- Result of `subprocess.run(cmd, capture_output=True, text=True)`. -/
structure CmdResult where
  returncode : Int
  stdout : Stdout
  stderr : String

/-- The four external `gcloud` invocations, in source order. -/
inductive Call where
  | describeJson : Call
  | revisionsList : Call
  | describeExport : Call
  | servicesReplace : Call
deriving DecidableEq

/-- The environment a run executes against: what each of the four subprocess
invocations would return if issued, and the prior content of
`/tmp/service.yaml` (`none` = file absent). -/
structure Env where
  describeRes : CmdResult
  listRes : CmdResult
  exportRes : CmdResult
  replaceRes : CmdResult
  fs0 : Option FileContent

/-- How the process terminates: `main` returning a code through
`sys.exit`, or an uncaught Python exception. -/
inductive Outcome where
  | exit (code : Int) : Outcome
  | fault (f : Fault) : Outcome
deriving DecidableEq

/-- Observed process exit status: the returned code, or 1 when the
interpreter dies on an uncaught exception. -/
def exitCode : Outcome → Int
  | .exit c => c
  | .fault _ => 1

/-- Everything observable about one run: termination outcome, the lines
printed to stdout in order, the external calls issued in order, and the final
content of `/tmp/service.yaml`. -/
structure RunResult where
  outcome : Outcome
  prints : List String
  calls : List Call
  fsFinal : Option FileContent

mutual
/-- Python `repr` for these values (used by `str` on lists/dicts in
f-strings). -/
def pyRepr : Json → String
  | .null => "None"
  | .bool true => "True"
  | .bool false => "False"
  | .num n => toString n
  | .str s => "\x27" ++ s ++ "\x27"
  | .arr xs => "[" ++ pyReprSeq xs ++ "]"
  | .obj kvs => "\x7b" ++ pyReprFields kvs ++ "\x7d"

/-- Comma-separated `repr`s of list elements. -/
def pyReprSeq : List Json → String
  | [] => ""
  | [x] => pyRepr x
  | x :: xs => pyRepr x ++ ", " ++ pyReprSeq xs

/-- Comma-separated `repr`s of dict entries. -/
def pyReprFields : List (String × Json) → String
  | [] => ""
  | [(k, v)] => "\x27" ++ k ++ "\x27: " ++ pyRepr v
  | (k, v) :: kvs => "\x27" ++ k ++ "\x27: " ++ pyRepr v ++ ", " ++ pyReprFields kvs
end

/-- Python `str` as used by f-string interpolation: plain text for strings,
`repr`-style rendering otherwise. -/
def pyStr (j : Json) : String :=
  match j with
  | .str s => s
  | j => pyRepr j

/-- The fixed temporary path (source line 61). -/
def export_file : String := "/tmp/service.yaml"

/-- Argument vector of the export invocation (source lines 62-68).  Because
`subprocess.run` receives it as a list without `shell=True`, every element —
including `">"` and the file path — is passed to `gcloud` verbatim; no
redirection occurs. -/
def exportCmd : List String :=
  ["gcloud", "run", "services", "describe", "prop-management",
   "--region", "europe-west4", "--project", "rentalspot-fzwom",
   "--format", "export", ">", export_file]

/-- Source lines 88-104: issue the `services replace` call against the (just
rewritten) file state `fs1`, relaying stderr and returning 1 on failure,
otherwise printing the confirmation naming `latest_revision` and
returning 0.  `p`/`c` accumulate the lines printed and calls issued so far. -/
def applyStep (env : Env) (p : List String) (c : List Call)
    (fs1 : Option FileContent) (latest_revision : Json) : RunResult :=
  let p2 := p ++ ["Applying new traffic configuration..."]
  let c4 := c ++ [Call.servicesReplace]
  if env.replaceRes.returncode ≠ 0 then
    ⟨.exit 1, p2 ++ ["Error applying configuration: " ++ env.replaceRes.stderr], c4, fs1⟩
  else
    ⟨.exit 0,
     p2 ++ ["Traffic configuration updated successfully!",
            "All traffic now routes to: " ++ pyStr latest_revision],
     c4, fs1⟩

/-- Source lines 75-86: open and read `/tmp/service.yaml`
(FileNotFoundError when absent), `yaml.safe_load` it, assign
`spec.traffic`, and `yaml.dump` the patched document back to the same path;
then the apply step. -/
def patchStep (env : Env) (p : List String) (c : List Call)
    (latest_revision : Json) : RunResult :=
  match env.fs0 with
  | none => ⟨.fault .fileNotFound, p, c, env.fs0⟩
  | some content =>
    match yamlLoads content with
    | .error f => ⟨.fault f, p, c, env.fs0⟩
    | .ok service_config =>
      match patchTraffic service_config (mkTraffic latest_revision) with
      | .error f => ⟨.fault f, p, c, env.fs0⟩
      | .ok patched =>
        applyStep env p c (some (.yamlDoc patched)) latest_revision

/-- Source lines 60-73: run `exportCmd` via
`subprocess.run(cmd, capture_output=True, text=True)`.  Because `">"` and
the path are ordinary argv elements and no shell is involved, the captured
stdout is held in memory (and never used) and the file at `export_file` is
NOT written: the patch step below reads whatever `env.fs0` already holds. -/
def exportStep (env : Env) (p : List String) (c : List Call)
    (latest_revision : Json) : RunResult :=
  let c3 := c ++ [Call.describeExport]
  if env.exportRes.returncode ≠ 0 then
    ⟨.exit 1, p ++ ["Error exporting service: " ++ env.exportRes.stderr], c3, env.fs0⟩
  else
    patchStep env p c3 latest_revision

/-- Source lines 46-58: parse the revision list, build
`existing_revision_names`, select `revisions[0]["metadata"]["name"]`, print
both, build `new_traffic` (used at the patch step), and continue with the
export step. -/
def selectStep (env : Env) (p : List String) (c : List Call) : RunResult :=
  match jsonLoads env.listRes.stdout with
  | .error f => ⟨.fault f, p, c, env.fs0⟩
  | .ok revisions =>
    match extractNames revisions with
    | .error f => ⟨.fault f, p, c, env.fs0⟩
    | .ok existing_revision_names =>
      match selectLatest revisions with
      | .error f => ⟨.fault f, p, c, env.fs0⟩
      | .ok latest_revision =>
        let p1 := p ++
          ["Latest revision: " ++ pyStr latest_revision,
           "Existing revisions: " ++ pyRepr (.arr existing_revision_names)]
        exportStep env p1 c latest_revision

/-- Source lines 32-44: issue the `revisions list` call, relay stderr and
return 1 on non-zero status, otherwise continue with parsing/selection. -/
def listStep (env : Env) (p : List String) (c : List Call) : RunResult :=
  let c2 := c ++ [Call.revisionsList]
  if env.listRes.returncode ≠ 0 then
    ⟨.exit 1, p ++ ["Error getting revisions: " ++ env.listRes.stderr], c2, env.fs0⟩
  else
    selectStep env p c2

/-- The script's `main()` (source lines 10-104), executed against `env`:
print the banner, issue the `describe` call, relay stderr and return 1 on
non-zero status, `json.loads` the stdout into `service` (never used again),
then continue with the list step. -/
def main (env : Env) : RunResult :=
  let p0 := ["Fixing traffic for prop-management in europe-west4..."]
  let c1 := [Call.describeJson]
  if env.describeRes.returncode ≠ 0 then
    ⟨.exit 1, p0 ++ ["Error getting service: " ++ env.describeRes.stderr], c1, env.fs0⟩
  else
    match jsonLoads env.describeRes.stdout with
    | .error f => ⟨.fault f, p0, c1, env.fs0⟩
    | .ok _service => listStep env p0 c1

/-- The result the environment holds in store for a given call. -/
def callRes (env : Env) : Call → CmdResult
  | .describeJson => env.describeRes
  | .revisionsList => env.listRes
  | .describeExport => env.exportRes
  | .servicesReplace => env.replaceRes

/-- The error line the script prints when a given call fails
(source lines 27, 43, 72, 98). -/
def errLine (c : Call) (stderr : String) : String :=
  match c with
  | .describeJson => "Error getting service: " ++ stderr
  | .revisionsList => "Error getting revisions: " ++ stderr
  | .describeExport => "Error exporting service: " ++ stderr
  | .servicesReplace => "Error applying configuration: " ++ stderr

/-! Concrete sample data for the end-to-end scenarios. -/

/-- A revision record carrying the fields the script reads. -/
def rev (name : String) : Json := .obj [("metadata", .obj [("name", .str name)])]

/-- The revision list of end-to-end scenario A (most recent first). -/
def revListA : Json := .arr [rev "rev-003", rev "rev-002", rev "rev-001"]

/-- A small exported service document with a stale traffic entry. -/
def sampleDoc : Json :=
  .obj [("apiVersion", .str "serving.knative.dev/v1"),
        ("kind", .str "Service"),
        ("metadata", .obj [("name", .str "prop-management")]),
        ("spec", .obj [("template", .obj [("containers", .arr [])]),
                       ("traffic", .arr [.obj [("revisionName", .str "rev-000"),
                                               ("percent", .num 100)]])])]

/-- A zero-status command result with the given stdout. -/
def okRes (s : Stdout) : CmdResult := ⟨0, s, ""⟩

/-- Fully successful environment of end-to-end scenario A. -/
def envA : Env :=
  { describeRes := okRes (.jsonText sampleDoc)
    listRes := okRes (.jsonText revListA)
    exportRes := okRes (.rawText "captured export text")
    replaceRes := okRes (.rawText "")
    fs0 := some (.yamlDoc sampleDoc) }

/-- Like `envA` but the list call succeeds with an empty revision array
(end-to-end scenario C). -/
def envEmpty : Env := { envA with listRes := okRes (.jsonText (.arr [])) }

/-- Like `envA` but `/tmp/service.yaml` does not exist beforehand. -/
def envNoFile : Env := { envA with fs0 := none }

/-- End-to-end scenario B: the list call fails with stderr text. -/
def envFailList : Env :=
  { envA with listRes := ⟨1, .rawText "", "service not found"⟩ }

/-- The document `sampleDoc` after `spec.traffic` is overwritten with the single-entry
assignment routing everything to `rev-003`. -/
def sampleDocPatched : Json :=
  .obj [("apiVersion", .str "serving.knative.dev/v1"),
        ("kind", .str "Service"),
        ("metadata", .obj [("name", .str "prop-management")]),
        ("spec", .obj [("template", .obj [("containers", .arr [])]),
                       ("traffic", mkTraffic (.str "rev-003"))])]

/-! Theorems settling the claims. -/

@[simp] theorem ok_bind {α β : Type} (a : α) (f : α → Except Fault β) :
    (Except.ok a >>= f) = f a := rfl

@[simp] theorem err_bind {α β : Type} (e : Fault) (f : α → Except Fault β) :
    ((Except.error e : Except Fault α) >>= f) = Except.error e := rfl

theorem getNames_mem {rs ns : List Json} (h : getNames rs = .ok ns)
    {x : Json} (hx : x ∈ rs) : ∃ m ∈ ns, getName x = .ok m := by
  induction rs generalizing ns with
  | nil => cases hx
  | cons a as ih =>
    rw [getNames] at h
    cases ha : getName a with
    | error f => rw [ha] at h; simp at h
    | ok n =>
      rw [ha] at h
      cases has : getNames as with
      | error f => rw [has] at h; simp at h
      | ok tl =>
        rw [has] at h
        simp only [ok_bind] at h
        have : n :: tl = ns := by
          simpa [pure, Except.pure] using h
        subst this
        rcases List.mem_cons.mp hx with hxa | hxs
        · exact ⟨n, List.mem_cons_self _ _, hxa ▸ ha⟩
        · obtain ⟨m, hm, hgm⟩ := ih has hxs
          exact ⟨m, List.mem_cons_of_mem _ hm, hgm⟩

/-- C1: for every non-empty RevisionSet, SelectLatest returns the
`metadata.name` of the first element, purely positionally (the tail is
irrelevant), and — whenever the extracted names are pairwise distinct, as
revision names are unique — never the name of any later element. -/
theorem selectLatest_first (r : Json) (rs : List Json) :
    selectLatest (.arr (r :: rs)) = getName r ∧
    (∀ ns, extractNames (.arr (r :: rs)) = .ok ns → ns.Pairwise (· ≠ ·) →
      ∀ x ∈ rs, getName x ≠ getName r) := by
  constructor
  · rfl
  · intro ns hns hpw x hx
    have hns' : getNames (r :: rs) = .ok ns := hns
    rw [getNames] at hns'
    cases hr : getName r with
    | error f => rw [hr] at hns'; simp at hns'
    | ok n =>
      rw [hr] at hns'
      cases hrs : getNames rs with
      | error f => rw [hrs] at hns'; simp at hns'
      | ok tl =>
        rw [hrs] at hns'
        simp only [ok_bind] at hns'
        have hcons : n :: tl = ns := by simpa [pure, Except.pure] using hns'
        subst hcons
        have hne : ∀ m ∈ tl, n ≠ m := (List.pairwise_cons.mp hpw).1
        obtain ⟨m, hm, hgm⟩ := getNames_mem hrs hx
        intro hcontra
        simp only [hgm, hr, Except.ok.injEq] at hcontra
        exact hne m hm hcontra.symm

/-- Closed witness for C1 at the scenario-A revision list. -/
theorem selectLatest_first_witness :
    selectLatest (.arr (rev "rev-003" :: [rev "rev-002", rev "rev-001"])) =
      getName (rev "rev-003") ∧
    getName (rev "rev-002") ≠ getName (rev "rev-003") := by
  refine ⟨(selectLatest_first (rev "rev-003") [rev "rev-002", rev "rev-001"]).1, ?_⟩
  refine (selectLatest_first (rev "rev-003") [rev "rev-002", rev "rev-001"]).2
    [.str "rev-003", .str "rev-002", .str "rev-001"] rfl ?_ (rev "rev-002") ?_
  · simp [List.pairwise_cons]
  · simp

theorem lookupKey_setKey_self (kvs : List (String × Json)) (k : String) (v : Json) :
    lookupKey (setKey kvs k v) k = some v := by
  induction kvs with
  | nil => simp [setKey, lookupKey]
  | cons kv rest ih =>
    obtain ⟨a, b⟩ := kv
    by_cases h : a = k
    · simp [setKey, lookupKey, h]
    · simp [setKey, lookupKey, h, ih]

theorem lookupKey_setKey_ne (kvs : List (String × Json)) (k k' : String) (v : Json)
    (h : k' ≠ k) : lookupKey (setKey kvs k v) k' = lookupKey kvs k' := by
  induction kvs with
  | nil => simp [setKey, lookupKey, Ne.symm h]
  | cons kv rest ih =>
    obtain ⟨a, b⟩ := kv
    by_cases ha : a = k
    · subst ha
      simp [setKey, lookupKey, Ne.symm h]
    · simp [setKey, lookupKey, ha, ih]

theorem setKey_setKey (kvs : List (String × Json)) (k : String) (v w : Json) :
    setKey (setKey kvs k v) k w = setKey kvs k w := by
  induction kvs with
  | nil => simp [setKey]
  | cons kv rest ih =>
    obtain ⟨a, b⟩ := kv
    by_cases h : a = k
    · simp [setKey, h]
    · simp [setKey, h, ih]

theorem patchTraffic_ok_iff (doc t doc' : Json) :
    patchTraffic doc t = .ok doc' ↔
    ∃ kvs skvs, doc = .obj kvs ∧ lookupKey kvs "spec" = some (.obj skvs) ∧
      doc' = .obj (setKey kvs "spec" (.obj (setKey skvs "traffic" t))) := by
  constructor
  · intro h
    cases doc
    case obj kvs =>
      cases hs : lookupKey kvs "spec" with
      | none => simp [patchTraffic, Json.get, hs] at h
      | some spec =>
        cases spec
        case obj skvs =>
          refine ⟨kvs, skvs, rfl, hs, ?_⟩
          simp [patchTraffic, Json.get, hs, Json.setItem] at h
          exact h.symm
        all_goals simp [patchTraffic, Json.get, hs, Json.setItem] at h
    all_goals simp [patchTraffic, Json.get] at h
  · rintro ⟨kvs, skvs, rfl, hs, rfl⟩
    simp [patchTraffic, Json.get, hs, Json.setItem]

theorem patchTraffic_getPath (doc t doc' : Json) (h : patchTraffic doc t = .ok doc') :
    getPath doc' ["spec", "traffic"] = .ok t := by
  obtain ⟨kvs, skvs, rfl, hs, rfl⟩ := (patchTraffic_ok_iff _ _ _).mp h
  simp [getPath, Json.get, lookupKey_setKey_self]

/-- C4: PatchTraffic preserves every field whose path is neither an
extension nor an ancestor of `spec.traffic`. -/
theorem patchTraffic_frame (doc t doc' : Json)
    (h : patchTraffic doc t = .ok doc') (p : List String)
    (h1 : ∀ q, ["spec", "traffic"] ++ q ≠ p)
    (h2 : ∀ q, p ++ q ≠ ["spec", "traffic"]) :
    getPath doc' p = getPath doc p := by
  obtain ⟨kvs, skvs, rfl, hs, rfl⟩ := (patchTraffic_ok_iff _ _ _).mp h
  match p with
  | [] => exact absurd rfl (h2 ["spec", "traffic"])
  | k :: p' =>
    by_cases hk : k = "spec"
    · subst hk
      match p' with
      | [] => exact absurd rfl (h2 ["traffic"])
      | k2 :: p'' =>
        by_cases hk2 : k2 = "traffic"
        · subst hk2; exact absurd rfl (h1 p'')
        · cases hlk : lookupKey skvs k2 with
          | none =>
            simp [getPath, Json.get, lookupKey_setKey_self, hs,
                  lookupKey_setKey_ne _ "traffic" k2 t hk2, hlk]
          | some v =>
            simp [getPath, Json.get, lookupKey_setKey_self, hs,
                  lookupKey_setKey_ne _ "traffic" k2 t hk2, hlk]
    · cases hlk : lookupKey kvs k with
      | none =>
        simp [getPath, Json.get, lookupKey_setKey_ne _ "spec" k _ hk, hlk]
      | some v =>
        simp [getPath, Json.get, lookupKey_setKey_ne _ "spec" k _ hk, hlk]

/-- Closed witness for C4. -/
theorem patchTraffic_frame_witness :
    patchTraffic sampleDoc (mkTraffic (.str "rev-003")) = .ok sampleDocPatched ∧
    getPath sampleDocPatched ["metadata", "name"] = getPath sampleDoc ["metadata", "name"] := by
  refine ⟨rfl, patchTraffic_frame sampleDoc _ sampleDocPatched rfl ["metadata", "name"] ?_ ?_⟩
  · intro q hq
    have hh : ("spec" : String) = "metadata" := by injection hq
    exact absurd hh (by decide)
  · intro q hq
    have hh : ("metadata" : String) = "spec" := by injection hq
    exact absurd hh (by decide)

/-- C5: patching is idempotent, and a second patch with another name fully
replaces the single-entry assignment. -/
theorem patchTraffic_idem (doc n m d1 : Json)
    (h : patchTraffic doc (mkTraffic n) = .ok d1) :
    patchTraffic d1 (mkTraffic n) = .ok d1 ∧
    ∃ d2, patchTraffic d1 (mkTraffic m) = .ok d2 ∧
      getPath d2 ["spec", "traffic"] = .ok (mkTraffic m) := by
  obtain ⟨kvs, skvs, rfl, hs, rfl⟩ := (patchTraffic_ok_iff _ _ _).mp h
  constructor
  · rw [patchTraffic_ok_iff]
    exact ⟨_, _, rfl, lookupKey_setKey_self _ _ _, by simp [setKey_setKey]⟩
  · have h2 : patchTraffic
        (.obj (setKey kvs "spec" (.obj (setKey skvs "traffic" (mkTraffic n)))))
        (mkTraffic m) =
        .ok (.obj (setKey kvs "spec" (.obj (setKey skvs "traffic" (mkTraffic m))))) := by
      rw [patchTraffic_ok_iff]
      exact ⟨_, _, rfl, lookupKey_setKey_self _ _ _, by simp [setKey_setKey]⟩
    exact ⟨_, h2, patchTraffic_getPath _ _ _ h2⟩

/-- Closed witness for C5. -/
theorem patchTraffic_idem_witness :
    patchTraffic sampleDocPatched (mkTraffic (.str "rev-003")) = .ok sampleDocPatched ∧
    ∃ d2, patchTraffic sampleDocPatched (mkTraffic (.str "rev-004")) = .ok d2 ∧
      getPath d2 ["spec", "traffic"] = .ok (mkTraffic (.str "rev-004")) :=
  patchTraffic_idem sampleDoc (.str "rev-003") (.str "rev-004") sampleDocPatched rfl

/-- C2: a fully successful run writes exactly the single-entry assignment
`[{revisionName: <first listed revision>, percent: 100}]` into the applied
document and exits 0. -/
theorem run_success_traffic (env : Env) (r : Json) (rs : List Json) (n : Json)
    (jd : Json) (ns : List Json) (content : FileContent) (doc patched : Json)
    (hd0 : env.describeRes.returncode = 0)
    (hdj : jsonLoads env.describeRes.stdout = .ok jd)
    (hl0 : env.listRes.returncode = 0)
    (hlj : jsonLoads env.listRes.stdout = .ok (.arr (r :: rs)))
    (hns : getNames (r :: rs) = .ok ns)
    (hn : getName r = .ok n)
    (he0 : env.exportRes.returncode = 0)
    (hfs : env.fs0 = some content)
    (hy : yamlLoads content = .ok doc)
    (hp : patchTraffic doc (mkTraffic n) = .ok patched)
    (hr0 : env.replaceRes.returncode = 0) :
    (main env).outcome = .exit 0 ∧
    (main env).fsFinal = some (.yamlDoc patched) ∧
    getPath patched ["spec", "traffic"] = .ok (mkTraffic n) ∧
    (main env).calls = [.describeJson, .revisionsList, .describeExport, .servicesReplace] := by
  have hext : extractNames (.arr (r :: rs)) = .ok ns := by
    simp [extractNames, iterElems, hns]
  have hsel : selectLatest (.arr (r :: rs)) = .ok n := by
    simp [selectLatest, Json.index0, hn]
  refine ⟨?_, ?_, patchTraffic_getPath _ _ _ hp, ?_⟩ <;>
    simp [main, listStep, selectStep, exportStep, patchStep, applyStep,
          hd0, hdj, hl0, hlj, hext, hsel, he0, hfs, hy, hp, hr0]

/-- Closed witness for C2: end-to-end scenario A. -/
theorem run_success_traffic_witness :
    (main envA).outcome = .exit 0 ∧
    (main envA).fsFinal = some (.yamlDoc sampleDocPatched) ∧
    getPath sampleDocPatched ["spec", "traffic"] = .ok (mkTraffic (.str "rev-003")) ∧
    (main envA).calls = [.describeJson, .revisionsList, .describeExport, .servicesReplace] :=
  run_success_traffic envA (rev "rev-003") [rev "rev-002", rev "rev-001"] (.str "rev-003")
    sampleDoc [.str "rev-003", .str "rev-002", .str "rev-001"] (.yamlDoc sampleDoc)
    sampleDoc sampleDocPatched rfl rfl rfl rfl rfl rfl rfl rfl rfl rfl rfl

/-- C3 (refuted by the code): the export command passes `">"` and the target
path as literal argv elements (no shell), so a zero-status export call
persists nothing: with `/tmp/service.yaml` absent beforehand, the run faults
with FileNotFoundError at the subsequent read instead of observing a freshly
exported configuration, and the file still does not exist afterwards. -/
theorem export_not_persisted :
    ">" ∈ exportCmd ∧ export_file ∈ exportCmd ∧
    envNoFile.exportRes.returncode = 0 ∧
    (main envNoFile).calls = [.describeJson, .revisionsList, .describeExport] ∧
    (main envNoFile).fsFinal = none ∧
    (main envNoFile).outcome = .fault .fileNotFound :=
  ⟨by decide, by decide, rfl, rfl, rfl, rfl⟩

/-- C6: a zero-status list call that returns an empty sequence faults
(Python IndexError on `revisions[0]`) with process exit status 1, before the
export, patch, or apply steps: only the first two calls are issued and the
file state is untouched. -/
theorem emptyList_fails (env : Env) (jd : Json)
    (hd0 : env.describeRes.returncode = 0)
    (hdj : jsonLoads env.describeRes.stdout = .ok jd)
    (hl0 : env.listRes.returncode = 0)
    (hlj : jsonLoads env.listRes.stdout = .ok (.arr [])) :
    (main env).outcome = .fault .indexError ∧
    exitCode (main env).outcome = 1 ∧
    (main env).calls = [.describeJson, .revisionsList] ∧
    (main env).fsFinal = env.fs0 := by
  refine ⟨?_, ?_, ?_, ?_⟩ <;>
    simp [main, listStep, selectStep, hd0, hdj, hl0, hlj, exitCode,
          extractNames, iterElems, getNames, selectLatest, Json.index0]

/-- Closed witness for C6: end-to-end scenario C. -/
theorem emptyList_fails_witness :
    (main envEmpty).outcome = .fault .indexError ∧
    exitCode (main envEmpty).outcome = 1 ∧
    (main envEmpty).calls = [.describeJson, .revisionsList] ∧
    (main envEmpty).fsFinal = envEmpty.fs0 :=
  emptyList_fails envEmpty sampleDoc rfl rfl rfl rfl

/-- C7 counterexample: in `envEmpty` all four stored call statuses are zero,
yet the process exit status is 1 (uncaught IndexError on the empty revision
list), refuting the claimed equivalence between exit code 0 and all four
calls returning zero. -/
theorem exit_statuses_counterexample :
    envEmpty.describeRes.returncode = 0 ∧ envEmpty.listRes.returncode = 0 ∧
    envEmpty.exportRes.returncode = 0 ∧ envEmpty.replaceRes.returncode = 0 ∧
    exitCode (main envEmpty).outcome ≠ 0 :=
  ⟨rfl, rfl, rfl, rfl, by decide⟩

/-- C7 (amended): exit status 0 requires all four calls to have returned
zero; and any issued call with non-zero status is the last call issued (no
retry, no further external call), its stderr is relayed in a printed error
line, and the run returns exit status 1.  (All-zero statuses alone do not
guarantee exit 0: data faults such as an empty revision list still abort.) -/
theorem exit_statuses (env : Env) :
    ((main env).outcome = .exit 0 →
      env.describeRes.returncode = 0 ∧ env.listRes.returncode = 0 ∧
      env.exportRes.returncode = 0 ∧ env.replaceRes.returncode = 0) ∧
    (∀ c ∈ (main env).calls, (callRes env c).returncode ≠ 0 →
      (main env).outcome = .exit 1 ∧
      (main env).calls.getLast? = some c ∧
      errLine c (callRes env c).stderr ∈ (main env).prints) := by
  constructor
  · unfold main listStep selectStep exportStep patchStep applyStep
    repeat' split
    all_goals intro h0
    all_goals simp_all
  · unfold main listStep selectStep exportStep patchStep applyStep
    repeat' split
    all_goals intro c hc hnz
    all_goals cases c
    all_goals simp_all [callRes, errLine]

/-- Closed witness for C7's amended theorem: end-to-end scenario B. -/
theorem exit_statuses_witness :
    (main envFailList).outcome = .exit 1 ∧
    (main envFailList).calls.getLast? = some .revisionsList ∧
    errLine .revisionsList (callRes envFailList .revisionsList).stderr ∈
      (main envFailList).prints :=
  (exit_statuses envFailList).2 .revisionsList (by decide) (by decide)

/-- C8: the issued calls always form an order-preserving prefix of
Describe → ListRevisions → Export → Replace, and the replace call (the only
mutation of the live service) is issued only when every earlier step —
describe status and parse, list status and parse, name extraction, positional
selection, export status, file read, YAML parse, and patch — succeeded. -/
theorem steps_sequential (env : Env) :
    (∃ t, (main env).calls ++ t =
      [Call.describeJson, Call.revisionsList, Call.describeExport, Call.servicesReplace]) ∧
    (Call.servicesReplace ∈ (main env).calls →
      env.describeRes.returncode = 0 ∧
      (∃ jd, jsonLoads env.describeRes.stdout = .ok jd) ∧
      env.listRes.returncode = 0 ∧
      (∃ revs ns latest, jsonLoads env.listRes.stdout = .ok revs ∧
        extractNames revs = .ok ns ∧ selectLatest revs = .ok latest ∧
        env.exportRes.returncode = 0 ∧
        (∃ content doc patched, env.fs0 = some content ∧
          yamlLoads content = .ok doc ∧
          patchTraffic doc (mkTraffic latest) = .ok patched))) := by
  constructor
  · unfold main listStep selectStep exportStep patchStep applyStep
    repeat' split
    all_goals exact ⟨_, rfl⟩
  · unfold main listStep selectStep exportStep patchStep applyStep
    repeat' split
    all_goals intro hmem
    all_goals simp_all

/-- Closed witness for C8 at the fully successful environment. -/
theorem steps_sequential_witness :
    (∃ t, (main envA).calls ++ t =
      [Call.describeJson, Call.revisionsList, Call.describeExport, Call.servicesReplace]) ∧
    (envA.describeRes.returncode = 0 ∧
      (∃ jd, jsonLoads envA.describeRes.stdout = .ok jd) ∧
      envA.listRes.returncode = 0 ∧
      (∃ revs ns latest, jsonLoads envA.listRes.stdout = .ok revs ∧
        extractNames revs = .ok ns ∧ selectLatest revs = .ok latest ∧
        envA.exportRes.returncode = 0 ∧
        (∃ content doc patched, envA.fs0 = some content ∧
          yamlLoads content = .ok doc ∧
          patchTraffic doc (mkTraffic latest) = .ok patched))) :=
  ⟨(steps_sequential envA).1, (steps_sequential envA).2 (by decide)⟩

/-- From the export step on, the accumulated print prefix is carried through
untouched: outcome, calls, and final file state are independent of it, and
the lines appended after it are the same for any prefix. -/
theorem exportStep_prints (e : Env) (p1 p2 : List String) (c : List Call) (l : Json) :
    (exportStep e p1 c l).outcome = (exportStep e p2 c l).outcome ∧
    (exportStep e p1 c l).calls = (exportStep e p2 c l).calls ∧
    (exportStep e p1 c l).fsFinal = (exportStep e p2 c l).fsFinal ∧
    ∃ P, (exportStep e p1 c l).prints = p1 ++ P ∧
         (exportStep e p2 c l).prints = p2 ++ P := by
  by_cases he : e.exportRes.returncode ≠ 0
  · exact ⟨by simp [exportStep, he], by simp [exportStep, he], by simp [exportStep, he],
      ["Error exporting service: " ++ e.exportRes.stderr],
      by simp [exportStep, he], by simp [exportStep, he]⟩
  · cases hfs : e.fs0 with
    | none =>
      refine ⟨?_, ?_, ?_, [], ?_, ?_⟩ <;> simp [exportStep, patchStep, he, hfs]
    | some content =>
      cases hy : yamlLoads content with
      | error f =>
        refine ⟨?_, ?_, ?_, [], ?_, ?_⟩ <;> simp [exportStep, patchStep, he, hfs, hy]
      | ok doc =>
        cases hp : patchTraffic doc (mkTraffic l) with
        | error f =>
          refine ⟨?_, ?_, ?_, [], ?_, ?_⟩ <;> simp [exportStep, patchStep, he, hfs, hy, hp]
        | ok patched =>
          by_cases hr : e.replaceRes.returncode ≠ 0
          · refine ⟨?_, ?_, ?_,
              ["Applying new traffic configuration...",
               "Error applying configuration: " ++ e.replaceRes.stderr], ?_, ?_⟩ <;>
              simp [exportStep, patchStep, applyStep, he, hfs, hy, hp, hr]
          · refine ⟨?_, ?_, ?_,
              ["Applying new traffic configuration...",
               "Traffic configuration updated successfully!",
               "All traffic now routes to: " ++ pyStr l], ?_, ?_⟩ <;>
              simp [exportStep, patchStep, applyStep, he, hfs, hy, hp, hr]

/-- C9: the informational name list influences nothing but its own printed
line: two runs that differ only in the revision-list stdout, both listing
valid revisions with the same first name, agree on outcome, issued calls,
final file state, and every printed line except the "Existing revisions"
display line (index 2). -/
theorem names_display_only (e : Env) (s1 s2 : Stdout) (r1 r2 : List Json)
    (ns1 ns2 : List Json) (n : Json) (env1 env2 : Env)
    (he1 : env1 = { e with listRes := ⟨e.listRes.returncode, s1, e.listRes.stderr⟩ })
    (he2 : env2 = { e with listRes := ⟨e.listRes.returncode, s2, e.listRes.stderr⟩ })
    (h1 : jsonLoads s1 = .ok (.arr r1)) (h2 : jsonLoads s2 = .ok (.arr r2))
    (hn1 : getNames r1 = .ok ns1) (hn2 : getNames r2 = .ok ns2)
    (hs1 : selectLatest (.arr r1) = .ok n) (hs2 : selectLatest (.arr r2) = .ok n) :
    (main env1).outcome = (main env2).outcome ∧
    (main env1).calls = (main env2).calls ∧
    (main env1).fsFinal = (main env2).fsFinal ∧
    (main env1).prints.eraseIdx 2 = (main env2).prints.eraseIdx 2 := by
  subst he1 he2
  by_cases hd : e.describeRes.returncode ≠ 0
  · simp [main, hd]
  · cases hdj : jsonLoads e.describeRes.stdout with
    | error f => simp [main, hd, hdj]
    | ok jd =>
      by_cases hl : e.listRes.returncode ≠ 0
      · simp [main, listStep, hd, hdj, hl]
      · have hx1 : extractNames (.arr r1) = .ok ns1 := by simp [extractNames, iterElems, hn1]
        have hx2 : extractNames (.arr r2) = .ok ns2 := by simp [extractNames, iterElems, hn2]
        have hred1 : main { e with listRes := ⟨e.listRes.returncode, s1, e.listRes.stderr⟩ } =
            exportStep { e with listRes := ⟨e.listRes.returncode, s1, e.listRes.stderr⟩ }
              (["Fixing traffic for prop-management in europe-west4...",
                "Latest revision: " ++ pyStr n,
                "Existing revisions: " ++ pyRepr (.arr ns1)])
              [Call.describeJson, Call.revisionsList] n := by
          simp [main, listStep, selectStep, hd, hdj, hl, h1, hx1, hs1]
        have hred2 : main { e with listRes := ⟨e.listRes.returncode, s2, e.listRes.stderr⟩ } =
            exportStep { e with listRes := ⟨e.listRes.returncode, s1, e.listRes.stderr⟩ }
              (["Fixing traffic for prop-management in europe-west4...",
                "Latest revision: " ++ pyStr n,
                "Existing revisions: " ++ pyRepr (.arr ns2)])
              [Call.describeJson, Call.revisionsList] n := by
          simp [main, listStep, selectStep, hd, hdj, hl, h2, hx2, hs2]
          rfl
        obtain ⟨ho, hc, hf, P, hP1, hP2⟩ :=
          exportStep_prints { e with listRes := ⟨e.listRes.returncode, s1, e.listRes.stderr⟩ }
            (["Fixing traffic for prop-management in europe-west4...",
              "Latest revision: " ++ pyStr n,
              "Existing revisions: " ++ pyRepr (.arr ns1)])
            (["Fixing traffic for prop-management in europe-west4...",
              "Latest revision: " ++ pyStr n,
              "Existing revisions: " ++ pyRepr (.arr ns2)])
            [Call.describeJson, Call.revisionsList] n
        rw [hred1, hred2]
        refine ⟨ho, hc, hf, ?_⟩
        rw [hP1, hP2]
        rfl

/-- Closed witness for C9: scenario-A list versus the singleton list with the
same first revision. -/
theorem names_display_only_witness :
    (main { envA with listRes := ⟨envA.listRes.returncode, .jsonText revListA, envA.listRes.stderr⟩ }).outcome =
      (main { envA with listRes := ⟨envA.listRes.returncode, .jsonText (.arr [rev "rev-003"]), envA.listRes.stderr⟩ }).outcome ∧
    (main { envA with listRes := ⟨envA.listRes.returncode, .jsonText revListA, envA.listRes.stderr⟩ }).calls =
      (main { envA with listRes := ⟨envA.listRes.returncode, .jsonText (.arr [rev "rev-003"]), envA.listRes.stderr⟩ }).calls ∧
    (main { envA with listRes := ⟨envA.listRes.returncode, .jsonText revListA, envA.listRes.stderr⟩ }).fsFinal =
      (main { envA with listRes := ⟨envA.listRes.returncode, .jsonText (.arr [rev "rev-003"]), envA.listRes.stderr⟩ }).fsFinal ∧
    (main { envA with listRes := ⟨envA.listRes.returncode, .jsonText revListA, envA.listRes.stderr⟩ }).prints.eraseIdx 2 =
      (main { envA with listRes := ⟨envA.listRes.returncode, .jsonText (.arr [rev "rev-003"]), envA.listRes.stderr⟩ }).prints.eraseIdx 2 :=
  names_display_only envA (.jsonText revListA) (.jsonText (.arr [rev "rev-003"]))
    [rev "rev-003", rev "rev-002", rev "rev-001"] [rev "rev-003"]
    [.str "rev-003", .str "rev-002", .str "rev-001"] [.str "rev-003"] (.str "rev-003")
    _ _ rfl rfl rfl rfl rfl rfl rfl rfl

/-- C10: the parsed output of the first describe call is never used: two runs
differing only in that (valid-JSON) stdout coincide on the entire observable
run result, and an invalid-JSON stdout only aborts the run with the parse
fault. -/
theorem describe_parse_unused (e : Env) (s1 s2 : Stdout) (j1 j2 : Json)
    (env1 env2 : Env)
    (he1 : env1 = { e with describeRes := ⟨e.describeRes.returncode, s1, e.describeRes.stderr⟩ })
    (he2 : env2 = { e with describeRes := ⟨e.describeRes.returncode, s2, e.describeRes.stderr⟩ })
    (h1 : jsonLoads s1 = .ok j1) (h2 : jsonLoads s2 = .ok j2) :
    main env1 = main env2 ∧
    (∀ s f, jsonLoads s = .error f → e.describeRes.returncode = 0 →
      (main { e with describeRes := ⟨e.describeRes.returncode, s, e.describeRes.stderr⟩ }).outcome = .fault f) := by
  constructor
  · subst he1 he2
    by_cases hd : e.describeRes.returncode ≠ 0
    · simp [main, hd]
    · simp only [main]
      simp [hd, h1, h2]
      rfl
  · intro s f hf hd0
    simp [main, hd0, hf]

/-- Closed witness for C10: two different valid describe documents, and one
invalid one. -/
theorem describe_parse_unused_witness :
    main { envA with describeRes := ⟨envA.describeRes.returncode, .jsonText sampleDoc, envA.describeRes.stderr⟩ } =
      main { envA with describeRes := ⟨envA.describeRes.returncode, .jsonText .null, envA.describeRes.stderr⟩ } ∧
    (main { envA with describeRes := ⟨envA.describeRes.returncode, .rawText "oops", envA.describeRes.stderr⟩ }).outcome =
      .fault .jsonDecodeError :=
  ⟨(describe_parse_unused envA (.jsonText sampleDoc) (.jsonText .null) sampleDoc .null
      _ _ rfl rfl rfl rfl).1,
   (describe_parse_unused envA (.jsonText sampleDoc) (.jsonText .null) sampleDoc .null
      _ _ rfl rfl rfl rfl).2 (.rawText "oops") .jsonDecodeError rfl rfl⟩

end FixTraffic
